import Mathlib

/-!
# Verification of the victron-mk3 protocol engine

Shallow embedding of the core of `victron_mk3/__init__.py` (the MK2/MK3
protocol driver): the frame codec, the response decoder, the variable
registry bootstrap, the W/X/Y/Z nonce tracker, and the response waiter
table.  Python byte values are modelled as `Nat`, Python floats as exact
rationals `ℚ`, Python dictionaries as functions into `Option`, and Python
exceptions as `Option.none` results.
-/

namespace VictronMK3

/-! ## Codec -/

/-- The trailing checksum byte computed by `_send_frame`:
`(256 - sum(msg[:-1])) & 255`. -/
def checksum (body : List Nat) : Nat :=
  (256 - body.sum % 256) % 256

/-- `_VictronMK3Driver._send_frame`: builds the outbound frame
`[len(data)+2, 0xFF, ord(command)] ++ data ++ [checksum]`. -/
def send_frame (command : Nat) (data : List Nat) : List Nat :=
  let body := (data.length + 2) :: 0xFF :: command :: data
  body ++ [checksum body]

/-- The inbound read loop of `_VictronMK3Driver.run`: repeatedly read one
length byte `L`, then `L+1` further bytes, and keep the message exactly when
`(L + sum(msg)) & 255 == 0`.  A tail too short to complete the read is
discarded (in Python `readexactly` would block or raise). -/
def splitFrames : List Nat → List (List Nat)
  | [] => []
  | L :: rest =>
    if L + 1 ≤ rest.length then
      (if (L + (rest.take (L + 1)).sum) % 256 = 0 then [rest.take (L + 1)] else []) ++
        splitFrames (rest.drop (L + 1))
    else []
termination_by bs => bs.length
decreasing_by simp; omega

/-- How `_handle_frame` reads a validated command-reply message: byte 0 must
be the `0xFF` marker, byte 1 is the command letter, and the bytes between the
letter and the trailing checksum are the payload. -/
def command_letter_and_payload (msg : List Nat) : Option (Nat × List Nat) :=
  if 2 ≤ msg.length ∧ msg.getD 0 0 = 0xFF then
    some (msg.getD 1 0, (msg.drop 2).dropLast)
  else none

/-! ## Typed responses -/

/-- The typed response hierarchy (`VersionResponse`, `InterfaceResponse`,
`LEDResponse`, `StateResponse`, `DCResponse`, `ACResponse`, `ConfigResponse`).
`IntFlag`-valued fields keep their raw byte; decimal fields are exact
rationals. -/
inductive Response
  | version (version : Nat)
  | interfaceResponse (flags : Nat)
  | led (on_leds blink_leds : Nat)
  | state
  | dc (dc_voltage dc_current_to_inverter dc_current_from_charger
      ac_inverter_frequency : ℚ)
  | ac (ac_phase ac_num_phases device_state : Nat)
      (ac_mains_voltage ac_mains_current ac_inverter_voltage ac_inverter_current
        ac_mains_frequency : ℚ)
  | config (last_active_ac_input : Nat) (current_limit_overridden_by_panel : Bool)
      (digital_multi_control_dedicated : Bool) (num_ac_inputs : Nat)
      (remote_panel_detected : Bool)
      (minimum_current_limit maximum_current_limit actual_current_limit : ℚ)
      (switch_register : Nat)
  deriving DecidableEq, Repr

/-- The response classes, used by waiters for `isinstance` checks. -/
inductive RKind
  | version | interfaceResponse | led | state | dc | ac | config
  deriving DecidableEq, Repr

def Response.kind : Response → RKind
  | .version _ => .version
  | .interfaceResponse _ => .interfaceResponse
  | .led _ _ => .led
  | .state => .state
  | .dc _ _ _ _ => .dc
  | .ac _ _ _ _ _ _ _ _ => .ac
  | .config _ _ _ _ _ _ _ _ _ => .config

/-! ## Variable info -/

/-- `_VictronMK3Driver.VariableInfo`. -/
structure VariableInfo where
  signed : Bool
  scale : ℚ
  offset : Nat
  deriving DecidableEq, Repr

/-- `VariableInfo.parse`: read a little-endian unsigned field of 1, 2 or 3
bytes, apply two's-complement if signed, then `scale * (raw + offset)`.
Other widths hit `assert False` in Python, modelled as `none`. -/
def VariableInfo.parse (info : VariableInfo) (raw : List Nat) : Option ℚ :=
  match raw with
  | [b0] =>
    let r : ℤ := if info.signed ∧ 0x80 ≤ b0 then (b0 : ℤ) - 0x100 else (b0 : ℤ)
    some (info.scale * ((r : ℚ) + (info.offset : ℚ)))
  | [b0, b1] =>
    let v := b0 ||| b1 <<< 8
    let r : ℤ := if info.signed ∧ 0x8000 ≤ v then (v : ℤ) - 0x10000 else (v : ℤ)
    some (info.scale * ((r : ℚ) + (info.offset : ℚ)))
  | [b0, b1, b2] =>
    let v := b0 ||| b1 <<< 8 ||| b2 <<< 16
    let r : ℤ := if info.signed ∧ 0x800000 ≤ v then (v : ℤ) - 0x1000000 else (v : ℤ)
    some (info.scale * ((r : ℚ) + (info.offset : ℚ)))
  | _ => none

/-- Python `round(x, 2)` on an exact rational: round half to even at two
decimal places. -/
def pyRound2 (q : ℚ) : ℚ :=
  let x := q * 100
  let f : ℤ := ⌊x⌋
  let r := x - (f : ℚ)
  let n : ℤ :=
    if r < 1 / 2 then f
    else if 1 / 2 < r then f + 1
    else if f % 2 = 0 then f else f + 1
  (n : ℚ) / 100

/-- `_VictronMK3Driver._period_to_frequency`. -/
def period_to_frequency (p : ℚ) : ℚ :=
  if p = 0 then 0 else pyRound2 (10 / p)

/-! ## Driver state and frame handling

The mutable fields of `_VictronMK3Driver` that the frame handler touches.
The only completion ever stored in `_w_completion` is
`_handle_variable_info_response`, so the slot is modelled by a pending flag.
Python exceptions (which would fault the session) are modelled as `none`. -/

structure DriverState where
  w_nonce : Nat
  w_completion_pending : Bool
  variable_id_queue : List Nat
  variable_info : Nat → Option VariableInfo
  variable_info_request_time : Option ℚ

/-- Observable effects of handling a frame: outbound frames (command letter
and payload handed to `_send_frame`) and responses handed to
`_deliver_response`. -/
inductive Event
  | send (command : Nat) (data : List Nat)
  | response (r : Response)
  deriving DecidableEq, Repr

/-- The lookup table `["W", "X", "Y", "Z"]` as ASCII codes. -/
def w_letters : List Nat := [87, 88, 89, 90]

/-- `_VictronMK3Driver.REQUEST_TIMEOUT_SECONDS` (0.5 s). -/
def REQUEST_TIMEOUT_SECONDS : ℚ := 1 / 2

/-- `_send_w_request`: increment the nonce mod 4, store the completion and
send the letter `["W","X","Y","Z"][nonce]`. -/
def send_w_request (st : DriverState) (data : List Nat) : DriverState × Event :=
  let nonce := (st.w_nonce + 1) % 4
  ({ st with w_nonce := nonce, w_completion_pending := true },
   .send (w_letters.getD nonce 0) data)

/-- `_populate_next_variable_info`, with the monotonic clock passed in as
`now`: do nothing if the queue is empty or a request is still outstanding
(its timestamp plus `REQUEST_TIMEOUT_SECONDS` is later than `now`); otherwise
record `now`, resend the address frame `'A' [1, 0]` and issue the W-family
variable-info request `[0x36, id & 255, id >> 8]` for the head id. -/
def populate_next_variable_info (st : DriverState) (now : ℚ) :
    DriverState × List Event :=
  match st.variable_id_queue with
  | [] => (st, [])
  | id :: _ =>
    if match st.variable_info_request_time with
       | some t => decide (now < t + REQUEST_TIMEOUT_SECONDS)
       | none => false
    then (st, [])
    else
      let st1 := { st with variable_info_request_time := some now }
      let r := send_w_request st1 [0x36, id &&& 255, id >>> 8]
      (r.1, [.send 65 [1, 0], r.2])

/-- The `VariableInfo` that `_handle_variable_info_response` computes from a
well-formed reply for the popped `id`: `scale = msg[3] | msg[4] << 8`,
two's-complement and `signed := true` when it is ≥ 0x8000, reciprocal scale
`1 / (0x8000 - scale)` when the magnitude is ≥ 0x4000, offset
`msg[6] | msg[7] << 8`, and `signed` forced true for id 3
(`HACK_OVERRIDE_AC_INVERTER_CURRENT_SIGNEDNESS`). -/
def decoded_variable_info (msg : List Nat) (id : Nat) : VariableInfo :=
  let scale0 := msg.getD 3 0 ||| msg.getD 4 0 <<< 8
  let signed0 := decide (0x8000 ≤ scale0)
  let scale1 := if 0x8000 ≤ scale0 then 0x10000 - scale0 else scale0
  { signed := if id = 3 then true else signed0
    scale := if 0x4000 ≤ scale1 then 1 / ((0x8000 : ℚ) - (scale1 : ℚ)) else (scale1 : ℚ)
    offset := msg.getD 6 0 ||| msg.getD 7 0 <<< 8 }

/-- `_handle_variable_info_response`: clear the request timestamp; on a
well-formed reply (`msg[2] == 0x8E`, `msg[5] == 0x8F`) decode the scale,
signedness and offset, pop the head id, store the `VariableInfo` and pump
the next request.  `none` models the Python exceptions: `ZeroDivisionError`
when the sign-adjusted scale is exactly `0x8000` (so that
`1 / (0x8000 - scale)` divides by zero), and `IndexError` when the id queue
is already empty. -/
def handle_variable_info_response (st : DriverState) (now : ℚ) (msg : List Nat) :
    Option (DriverState × List Event) :=
  if 8 ≤ msg.length ∧ msg.getD 2 0 = 0x8E ∧ msg.getD 5 0 = 0x8F then
    if (if 0x8000 ≤ msg.getD 3 0 ||| msg.getD 4 0 <<< 8 then
        0x10000 - (msg.getD 3 0 ||| msg.getD 4 0 <<< 8)
      else msg.getD 3 0 ||| msg.getD 4 0 <<< 8) = 0x8000 then none
    else
      match st.variable_id_queue with
      | [] => none
      | id :: restQueue =>
        some (populate_next_variable_info
          { st with
              variable_id_queue := restQueue
              variable_info := Function.update st.variable_info id
                (some (decoded_variable_info msg id))
              variable_info_request_time := none } now)
  else some ({ st with variable_info_request_time := none }, [])

/-- `_handle_w_response` as used by the driver (whose stored completion is
always `_handle_variable_info_response`): drop the reply unless the nonce
matches and a completion is pending; otherwise clear the completion and run
it. -/
def handle_w_response (st : DriverState) (now : ℚ) (nonce : Nat) (msg : List Nat) :
    Option (DriverState × List Event) :=
  if st.w_nonce ≠ nonce ∨ st.w_completion_pending = false then some (st, [])
  else handle_variable_info_response { st with w_completion_pending := false } now msg

/-- `_HandleFrameResult st' events`: what `_handle_frame` does to the driver
state and which frames/responses it emits; `none` models an uncaught Python
exception (which would fault the session). -/
def handle_frame (st : DriverState) (now : ℚ) (msg : List Nat) :
    Option (DriverState × List Event) :=
  if 2 ≤ msg.length ∧ msg.getD 0 0 = 0xFF then
    if msg.getD 1 0 = 86 ∧ 6 ≤ msg.length then
      some (st, [.response (.version (msg.getD 2 0 ||| msg.getD 3 0 <<< 8 |||
        msg.getD 4 0 <<< 16 ||| msg.getD 5 0 <<< 24))])
    else if msg.getD 1 0 = 72 ∧ 3 ≤ msg.length then
      some (st, [.response (.interfaceResponse (msg.getD 2 0))])
    else if msg.getD 1 0 = 76 ∧ 4 ≤ msg.length then
      some (st, [.response (.led (msg.getD 2 0) (msg.getD 3 0))])
    else if msg.getD 1 0 = 83 then
      some (st, [.response .state])
    else if msg.getD 1 0 = 87 then handle_w_response st now 0 msg
    else if msg.getD 1 0 = 88 then handle_w_response st now 1 msg
    else if msg.getD 1 0 = 89 then handle_w_response st now 2 msg
    else if msg.getD 1 0 = 90 then handle_w_response st now 3 msg
    else some (st, [])
  else if 15 ≤ msg.length ∧ msg.getD 0 0 = 0x20 then
    if st.variable_id_queue = [] then
      if msg.getD 5 0 = 0x0C then
        match st.variable_info 4, st.variable_info 5, st.variable_info 7 with
        | some v4, some v5, some v7 =>
          match v4.parse ((msg.drop 6).take 2), v5.parse ((msg.drop 8).take 3),
              v5.parse ((msg.drop 11).take 3), v7.parse ((msg.drop 14).take 1) with
          | some dcv, some dci, some dcc, some acp =>
            some (st, [.response (.dc dcv dci dcc (period_to_frequency acp))])
          | _, _, _, _ => none
        | _, _, _ => none
      else if 0x05 ≤ msg.getD 5 0 ∧ msg.getD 5 0 ≤ 0x0B then
        if msg.getD 4 0 ≤ 9 then
          match st.variable_info 0, st.variable_info 1, st.variable_info 2,
              st.variable_info 3, st.variable_info 8 with
          | some v0, some v1, some v2, some v3, some v8 =>
            match v0.parse ((msg.drop 6).take 2), v1.parse ((msg.drop 8).take 2),
                v2.parse ((msg.drop 10).take 2), v3.parse ((msg.drop 12).take 2),
                v8.parse ((msg.drop 14).take 1) with
            | some mv, some mc, some iv, some ic, some mp =>
              some (st, [.response (.ac (max (9 - msg.getD 5 0) 1) (msg.getD 5 0 - 7)
                (msg.getD 4 0) mv (mc * (msg.getD 1 0 : ℚ)) iv
                (ic * (msg.getD 2 0 : ℚ)) (period_to_frequency mp))])
            | _, _, _, _, _ => none
          | _, _, _, _, _ => none
        else none
      else some (st, [])
    else some (populate_next_variable_info st now)
  else if 13 ≤ msg.length ∧ msg.getD 0 0 = 0x41 then
    some (st, [.response (.config
      (msg.getD 5 0 &&& 0x03)
      (msg.getD 5 0 &&& 0x04 != 0)
      (msg.getD 5 0 &&& 0x08 != 0)
      ((msg.getD 5 0 &&& 0x70) >>> 4)
      (msg.getD 5 0 &&& 0x80 != 0)
      (((msg.getD 6 0 ||| msg.getD 7 0 <<< 8 : Nat) : ℚ) / 10)
      (((msg.getD 8 0 ||| msg.getD 9 0 <<< 8 : Nat) : ℚ) / 10)
      (((msg.getD 10 0 ||| msg.getD 11 0 <<< 8 : Nat) : ℚ) / 10)
      (msg.getD 12 0))])
  else some (st, [])

/-- `send_state_request`: encode the requested current limit and send
`'S' [switch_state, value & 255, value >> 8, 0x01, 0x80]`.  Python's `int()`
truncation on a positive float is `Int.toNat ∘ Int.floor` on the exact
rational. -/
def send_state_request (switch_state : Nat) (current_limit : Option ℚ) : Event :=
  let value : Nat :=
    match current_limit with
    | none => 0x8000
    | some c => if c ≤ 0 then 0 else min (Int.toNat ⌊c * 10⌋) 0x7FFF
  .send 83 [switch_state, value &&& 255, value >>> 8, 0x01, 0x80]

/-! ## The generic nonce slot

`_send_w_request` / `_handle_w_response` with the completion kept abstract,
exactly as the methods are written. -/

structure WSlot (α : Type) where
  nonce : Nat
  completion : Option α

/-- `_send_w_request` on an abstract completion `c`: bump the nonce, store
the completion, return the command letter to send. -/
def WSlot.send_w {α : Type} (s : WSlot α) (c : α) : WSlot α × Nat :=
  let n := (s.nonce + 1) % 4
  ({ nonce := n, completion := some c }, w_letters.getD n 0)

/-- `_handle_w_response` on the abstract slot: the second component is the
completion that fires (after being cleared from the slot), if any. -/
def WSlot.handle_w {α : Type} (s : WSlot α) (m : Nat) : WSlot α × Option α :=
  if s.nonce ≠ m ∨ s.completion.isNone then (s, none)
  else ({ s with completion := none }, s.completion)

/-! ## The waiter table -/

/-- One entry of `_response_waiters`: `[cls, predicate, event, result]`
(the `asyncio.Event` is irrelevant to matching and omitted). -/
structure Waiter where
  kind : RKind
  predicate : Option (Response → Bool)
  result : Option Response

/-- The matching condition of `_deliver_response`:
`isinstance(response, waiter[0]) and (waiter[1] is None or waiter[1](response))
and waiter[3] is None`. -/
def Waiter.accepts (w : Waiter) (r : Response) : Bool :=
  decide (w.kind = r.kind) &&
    (match w.predicate with | none => true | some p => p r) &&
    w.result.isNone

/-- The scan loop of `_deliver_response`: fill the first accepting waiter and
stop. -/
def fill_first_waiter : List Waiter → Response → List Waiter
  | [], _ => []
  | w :: rest, r =>
    if w.accepts r then { w with result := some r } :: rest
    else w :: fill_first_waiter rest r

/-- `_deliver_response`: fill at most one waiter, then call
`handler.on_response(response)` exactly once (the second component lists the
calls made to the handler). -/
def deliver_response (ws : List Waiter) (r : Response) : List Waiter × List Response :=
  (fill_first_waiter ws r, [r])

/-! ## Concrete states and messages used by witnesses -/

/-- The driver state right after `__init__`: nonce 0, no completion, the full
id queue `[0, 1, 2, 3, 4, 5, 7, 8]`, empty registry, no outstanding request. -/
def st0 : DriverState :=
  ⟨0, false, [0, 1, 2, 3, 4, 5, 7, 8], fun _ => none, none⟩

/-- A bootstrap state with a variable-info request outstanding since time 0. -/
def stPend : DriverState :=
  ⟨0, true, [0, 1, 2, 3, 4, 5, 7, 8], fun _ => none, some 0⟩

/-- A state whose bootstrap has completed: empty queue, every id registered
with the trivial scaling. -/
def stFull : DriverState :=
  ⟨0, false, [], fun _ => some ⟨false, 1, 0⟩, none⟩

/-- A well-formed DC info message: `msg[0] = 0x20`, `msg[5] = 0x0C`,
length 15. -/
def msgInfoDC : List Nat :=
  [0x20, 0, 0, 0, 0, 0x0C, 0, 0, 0, 0, 0, 0, 0, 0, 0]

/-- An AC-phase predicate as passed by `send_ac_request(1)`. -/
def acPhasePred (phase : Nat) : Response → Bool
  | .ac p _ _ _ _ _ _ _ => p == phase
  | _ => false

/-- A waiter for `ACResponse` at phase 1 (unfilled). -/
def waiterAC1 : Waiter := ⟨.ac, some (acPhasePred 1), none⟩

/-- A waiter for `ACResponse` at phase 2 (unfilled). -/
def waiterAC2 : Waiter := ⟨.ac, some (acPhasePred 2), none⟩

/-- An `ACResponse` for phase 2. -/
def responseAC2 : Response := .ac 2 0 4 0 0 0 0 0

/-! ## Unfolding lemmas -/

lemma splitFrames_nil : splitFrames [] = [] := by
  rw [splitFrames]

lemma splitFrames_cons (L : Nat) (rest : List Nat) :
    splitFrames (L :: rest) =
      if L + 1 ≤ rest.length then
        (if (L + (rest.take (L + 1)).sum) % 256 = 0 then [rest.take (L + 1)] else []) ++
          splitFrames (rest.drop (L + 1))
      else [] := by
  rw [splitFrames]

/-- C1: For every command letter C in {'V','L','F','S','H','A','W','X','Y','Z'}
and every payload P of at most 252 bytes, `_send_frame` produces the frame
`[|P|+2, 0xFF, ord(C)] ++ P ++ [checksum]` whose bytes sum to 0 mod 256, the
inbound reader accepts exactly that message (the checksum validation
`(L + sum(msg)) % 256 == 0` passes), and the message yields back the command
letter C and the payload P. -/
theorem frame_round_trip (c : Nat) (P : List Nat)
    (hc : c ∈ [86, 76, 70, 83, 72, 65, 87, 88, 89, 90])
    (hP : ∀ b ∈ P, b < 256) (hlen : P.length ≤ 252) :
    (send_frame c P).sum % 256 = 0 ∧
    splitFrames (send_frame c P) =
      [0xFF :: c :: P ++ [checksum ((P.length + 2) :: 0xFF :: c :: P)]] ∧
    command_letter_and_payload
        (0xFF :: c :: P ++ [checksum ((P.length + 2) :: 0xFF :: c :: P)]) =
      some (c, P) := by
  have hsum : (send_frame c P).sum % 256 = 0 := by
    simp only [send_frame, checksum, List.sum_append, List.sum_cons, List.sum_nil]
    omega
  refine ⟨hsum, ?_, ?_⟩
  · have hrest : (0xFF :: c :: P ++
        [checksum ((P.length + 2) :: 0xFF :: c :: P)]).length = P.length + 3 := by
      simp
    have hframe : send_frame c P = (P.length + 2) ::
        (0xFF :: c :: P ++ [checksum ((P.length + 2) :: 0xFF :: c :: P)]) := by
      simp [send_frame]
    rw [hframe, splitFrames_cons, hrest]
    have h1 : P.length + 2 + 1 ≤ P.length + 3 := by omega
    rw [if_pos h1]
    have htake : (0xFF :: c :: P ++
        [checksum ((P.length + 2) :: 0xFF :: c :: P)]).take (P.length + 2 + 1) =
        0xFF :: c :: P ++ [checksum ((P.length + 2) :: 0xFF :: c :: P)] := by
      apply List.take_of_length_le
      omega
    have hdrop : (0xFF :: c :: P ++
        [checksum ((P.length + 2) :: 0xFF :: c :: P)]).drop (P.length + 2 + 1) =
        ([] : List Nat) := by
      apply List.drop_eq_nil_of_le
      omega
    rw [htake, hdrop]
    have hck : (P.length + 2 + (0xFF :: c :: P ++
        [checksum ((P.length + 2) :: 0xFF :: c :: P)]).sum) % 256 = 0 := by
      have := hsum
      simp only [send_frame, List.sum_append, List.sum_cons, List.sum_nil] at this ⊢
      omega
    rw [if_pos hck]
    simp [splitFrames_nil]
  · rw [command_letter_and_payload]
    have hcond : 2 ≤ (0xFF :: c :: P ++
        [checksum ((P.length + 2) :: 0xFF :: c :: P)]).length ∧
        (0xFF :: c :: P ++
          [checksum ((P.length + 2) :: 0xFF :: c :: P)]).getD 0 0 = 0xFF := by
      constructor
      · simp
      · rfl
    rw [if_pos hcond]
    simp

/-- Witness for C1 at C = 'V' (86) and P = [1, 2]. -/
theorem frame_round_trip_witness :
    (send_frame 86 [1, 2]).sum % 256 = 0 ∧
    splitFrames (send_frame 86 [1, 2]) =
      [0xFF :: 86 :: [1, 2] ++ [checksum (([1, 2].length + 2) :: 0xFF :: 86 :: [1, 2])]] ∧
    command_letter_and_payload
        (0xFF :: 86 :: [1, 2] ++ [checksum (([1, 2].length + 2) :: 0xFF :: 86 :: [1, 2])]) =
      some (86, [1, 2]) :=
  frame_round_trip 86 [1, 2] (by decide) (by decide) (by decide)

lemma fill_first_waiter_no_match (ws : List Waiter) (r : Response)
    (h : ∀ w ∈ ws, w.accepts r = false) : fill_first_waiter ws r = ws := by
  induction ws with
  | nil => rfl
  | cons w rest ih =>
    have hw := h w (List.mem_cons_self w rest)
    simp only [fill_first_waiter, hw, Bool.false_eq_true, if_false]
    rw [ih (fun u hu => h u (List.mem_cons_of_mem w hu))]

lemma fill_first_waiter_first_match (pre : List Waiter) (w : Waiter)
    (suf : List Waiter) (r : Response)
    (hpre : ∀ u ∈ pre, u.accepts r = false) (hw : w.accepts r = true) :
    fill_first_waiter (pre ++ w :: suf) r =
      pre ++ { w with result := some r } :: suf := by
  induction pre with
  | nil => simp [fill_first_waiter, hw]
  | cons p pre ih =>
    have hp := hpre p (List.mem_cons_self p pre)
    simp only [List.cons_append, fill_first_waiter, hp, Bool.false_eq_true, if_false]
    exact congrArg (List.cons p) (ih (fun u hu => hpre u (List.mem_cons_of_mem p hu)))

lemma populate_sends_only (st : DriverState) (now : ℚ) (r : Response) :
    Event.response r ∉ (populate_next_variable_info st now).2 := by
  cases hq : st.variable_id_queue with
  | nil => simp [populate_next_variable_info, hq]
  | cons id q =>
    unfold populate_next_variable_info
    rw [hq]
    split
    · simp
    · split
      · simp
      · simp [send_w_request]

lemma populate_preserves (st : DriverState) (now : ℚ) :
    (populate_next_variable_info st now).1.variable_info = st.variable_info ∧
    (populate_next_variable_info st now).1.variable_id_queue =
      st.variable_id_queue := by
  cases hq : st.variable_id_queue with
  | nil => simp [populate_next_variable_info, hq]
  | cons id q =>
    unfold populate_next_variable_info
    rw [hq]
    split
    · exact ⟨rfl, hq⟩
    · split
      · exact ⟨rfl, hq⟩
      · exact ⟨rfl, rfl⟩

lemma parse_isSome (info : VariableInfo) (raw : List Nat)
    (h : raw.length = 1 ∨ raw.length = 2 ∨ raw.length = 3) :
    (info.parse raw).isSome := by
  rcases h with h | h | h
  · obtain ⟨a, rfl⟩ := List.length_eq_one.mp h
    simp [VariableInfo.parse]
  · obtain ⟨a, b, rfl⟩ := List.length_eq_two.mp h
    simp [VariableInfo.parse]
  · obtain ⟨a, b, c, rfl⟩ := List.length_eq_three.mp h
    simp [VariableInfo.parse]

lemma slice_length (msg : List Nat) (i k : Nat) (h : i + k ≤ msg.length) :
    ((msg.drop i).take k).length = k := by
  simp only [List.length_take, List.length_drop]
  omega

/-- C4: Each new W-family request increments the nonce modulo 4, stores its
completion callback, and is sent with command letter `["W","X","Y","Z"][n]`;
an incoming reply of letter index m fires the stored completion exactly when
m equals the current nonce and a completion is pending (the slot being
cleared in the post-state), and is dropped otherwise. -/
theorem w_nonce_correlation {α : Type} (s : WSlot α) (c : α) (m : Nat) :
    ((s.send_w c).1.nonce = (s.nonce + 1) % 4 ∧
      (s.send_w c).1.completion = some c ∧
      (s.send_w c).2 = w_letters.getD ((s.nonce + 1) % 4) 0) ∧
    ((s.handle_w m).2.isSome ↔ (m = s.nonce ∧ s.completion.isSome)) ∧
    (m = s.nonce → s.completion.isSome →
      s.handle_w m = ({ s with completion := none }, s.completion)) ∧
    (¬(m = s.nonce ∧ s.completion.isSome) → s.handle_w m = (s, none)) := by
  obtain ⟨n, co⟩ := s
  refine ⟨⟨rfl, rfl, rfl⟩, ?_, ?_, ?_⟩
  · rcases co with _ | x
    · simp [WSlot.handle_w]
    · by_cases hm : m = n
      · subst hm
        simp [WSlot.handle_w]
      · simp [WSlot.handle_w, hm, Ne.symm hm]
  · intro h1 h2
    simp only at h1
    subst h1
    rcases co with _ | x
    · simp at h2
    · simp [WSlot.handle_w]
  · intro h
    rcases co with _ | x
    · simp [WSlot.handle_w]
    · have hm : ¬m = n := fun e => h ⟨e, by simp⟩
      simp [WSlot.handle_w, Ne.symm hm]

/-- Witness for C4: with current nonce 2 and a pending completion 7, the
reply letter of index 2 fires 7 and clears the slot; with no matching index
the reply is dropped; sending stores the completion. -/
theorem w_nonce_correlation_witness :
    WSlot.handle_w ⟨2, some 7⟩ 2 = ((⟨2, none⟩ : WSlot Nat), some 7) ∧
    WSlot.handle_w ⟨2, some 9⟩ 0 = ((⟨2, some 9⟩ : WSlot Nat), none) ∧
    (WSlot.send_w (⟨3, none⟩ : WSlot Nat) 5).1.completion = some 5 :=
  ⟨(w_nonce_correlation ⟨2, some 7⟩ 7 2).2.2.1 rfl (by decide),
   (w_nonce_correlation ⟨2, some 9⟩ 7 0).2.2.2 (by decide),
   (w_nonce_correlation ⟨3, none⟩ 5 0).1.2.1⟩

/-- C6: `send_state_request(s, c)` encodes the limit as 0x8000 when c is
None, 0 when c ≤ 0, and `min(floor(c * 10), 0x7FFF)` otherwise, and sends
command 'S' with payload `[s, value & 0xFF, value >> 8, 0x01, 0x80]`;
c = 12.3 yields value 123 and c = 1e9 yields value 0x7FFF. -/
theorem send_state_request_encoding (s : Nat) (c : ℚ) :
    send_state_request s none = .send 83 [s, 0, 0x80, 0x01, 0x80] ∧
    (c ≤ 0 → send_state_request s (some c) = .send 83 [s, 0, 0, 0x01, 0x80]) ∧
    (0 < c → send_state_request s (some c) = .send 83
      [s, min (Int.toNat ⌊c * 10⌋) 0x7FFF &&& 255,
        min (Int.toNat ⌊c * 10⌋) 0x7FFF >>> 8, 0x01, 0x80]) ∧
    send_state_request s (some (123 / 10)) = .send 83 [s, 123, 0, 0x01, 0x80] ∧
    send_state_request s (some 1000000000) = .send 83 [s, 255, 127, 0x01, 0x80] := by
  refine ⟨rfl, ?_, ?_, ?_, ?_⟩
  · intro h
    simp [send_state_request, h]
  · intro h
    simp [send_state_request, not_le.mpr h]
  · have h1 : ¬((123 : ℚ) / 10 ≤ 0) := by norm_num
    have h2 : ⌊(123 : ℚ) / 10 * 10⌋ = 123 := by norm_num
    simp [send_state_request, h1, h2]
    decide
  · have h1 : ¬((1000000000 : ℚ) ≤ 0) := by norm_num
    have h2 : ⌊(1000000000 : ℚ) * 10⌋ = 10000000000 := by norm_num
    simp [send_state_request, h1, h2]
    decide

/-- Witness for C6 at s = 3 (ON) and c = 2. -/
theorem send_state_request_encoding_witness :
    send_state_request 3 (some (-1)) = .send 83 [3, 0, 0, 0x01, 0x80] ∧
    send_state_request 3 (some 2) = .send 83
      [3, min (Int.toNat ⌊(2 : ℚ) * 10⌋) 0x7FFF &&& 255,
        min (Int.toNat ⌊(2 : ℚ) * 10⌋) 0x7FFF >>> 8, 0x01, 0x80] :=
  ⟨(send_state_request_encoding 3 (-1)).2.1 (by norm_num),
   (send_state_request_encoding 3 2).2.2.1 (by norm_num)⟩

/-- C9: A Config frame (first payload byte 0x41, length ≥ 13) is decoded and
delivered as a `ConfigResponse` regardless of the driver state — in
particular even while the variable-registry bootstrap is incomplete: the
bootstrap gate applies only to Info frames. -/
theorem config_frame_ungated (st : DriverState) (now : ℚ) (msg : List Nat)
    (hlen : 13 ≤ msg.length) (h0 : msg.getD 0 0 = 0x41) :
    handle_frame st now msg = some (st, [.response (.config
      (msg.getD 5 0 &&& 0x03)
      (msg.getD 5 0 &&& 0x04 != 0)
      (msg.getD 5 0 &&& 0x08 != 0)
      ((msg.getD 5 0 &&& 0x70) >>> 4)
      (msg.getD 5 0 &&& 0x80 != 0)
      (((msg.getD 6 0 ||| msg.getD 7 0 <<< 8 : Nat) : ℚ) / 10)
      (((msg.getD 8 0 ||| msg.getD 9 0 <<< 8 : Nat) : ℚ) / 10)
      (((msg.getD 10 0 ||| msg.getD 11 0 <<< 8 : Nat) : ℚ) / 10)
      (msg.getD 12 0))]) := by
  have h2 : 2 ≤ msg.length := by omega
  simp at h0
  simp [handle_frame, h0, h2, hlen]

/-- Witness for C9: a minimal Config frame against the freshly initialised
driver, whose bootstrap queue is still full. -/
theorem config_frame_ungated_witness :
    handle_frame st0 0 [0x41, 0, 0, 0, 0, 0x0C, 100, 0, 200, 0, 150, 0, 0x11] =
      some (st0, [.response (.config 0 true true 0 false 10 20 15 0x11)]) := by
  have h := config_frame_ungated st0 0
    [0x41, 0, 0, 0, 0, 0x0C, 100, 0, 200, 0, 150, 0, 0x11] (by decide) (by decide)
  rw [h]
  norm_num
  decide

/-- C10: A command-reply frame (first byte 0xFF) too short for its subtype —
'V' shorter than 6 bytes, 'H' shorter than 3, 'L' shorter than 4, or any
frame shorter than 2 bytes — is silently ignored: the handler produces no
event, leaves the state unchanged, and raises no exception (no out-of-bounds
access). -/
theorem short_command_frames_ignored (st : DriverState) (now : ℚ) (msg : List Nat)
    (h0 : msg.getD 0 0 = 0xFF) :
    (msg.getD 1 0 = 86 → msg.length < 6 → handle_frame st now msg = some (st, [])) ∧
    (msg.getD 1 0 = 72 → msg.length < 3 → handle_frame st now msg = some (st, [])) ∧
    (msg.getD 1 0 = 76 → msg.length < 4 → handle_frame st now msg = some (st, [])) ∧
    (msg.length < 2 → handle_frame st now msg = some (st, [])) := by
  refine ⟨?_, ?_, ?_, ?_⟩
  · intro h1 hlen
    have hge : 2 ≤ msg.length := by
      by_contra hc
      rw [List.getD_eq_default _ _ (by omega)] at h1
      omega
    have h6 : ¬6 ≤ msg.length := by omega
    simp at h0 h1
    simp [handle_frame, h0, h1, hge, h6]
  · intro h1 hlen
    have hge : 2 ≤ msg.length := by
      by_contra hc
      rw [List.getD_eq_default _ _ (by omega)] at h1
      omega
    have h3 : ¬3 ≤ msg.length := by omega
    simp at h0 h1
    simp [handle_frame, h0, h1, hge, h3]
  · intro h1 hlen
    have hge : 2 ≤ msg.length := by
      by_contra hc
      rw [List.getD_eq_default _ _ (by omega)] at h1
      omega
    have h4 : ¬4 ≤ msg.length := by omega
    simp at h0 h1
    simp [handle_frame, h0, h1, hge, h4]
  · intro hlen
    have hge : ¬2 ≤ msg.length := by omega
    have h15 : ¬15 ≤ msg.length := by omega
    have h13 : ¬13 ≤ msg.length := by omega
    simp [handle_frame, hge, h15, h13]

/-- Witness for C10: a truncated version reply `FF 56 01 02` is ignored. -/
theorem short_command_frames_ignored_witness :
    handle_frame st0 0 [0xFF, 0x56, 0x01, 0x02] = some (st0, []) :=
  (short_command_frames_ignored st0 0 [0xFF, 0x56, 0x01, 0x02]
    (by decide)).1 (by decide) (by decide)

/-- C5: When a decoded response is delivered it fills at most one waiter —
the first entry in insertion order whose kind matches, whose optional
predicate accepts it, and whose result slot is still empty (`Waiter.accepts`)
— leaving every other entry untouched; and whether or not any waiter was
filled, the response is passed to the handler's `on_response` exactly once. -/
theorem waiter_first_fit (ws : List Waiter) (r : Response) :
    (deliver_response ws r).2 = [r] ∧
    ((∀ w ∈ ws, w.accepts r = false) → (deliver_response ws r).1 = ws) ∧
    (∀ pre w suf, ws = pre ++ w :: suf → (∀ u ∈ pre, u.accepts r = false) →
      w.accepts r = true →
      (deliver_response ws r).1 = pre ++ { w with result := some r } :: suf) := by
  refine ⟨rfl, ?_, ?_⟩
  · exact fun h => fill_first_waiter_no_match ws r h
  · rintro pre w suf rfl hpre hw
    exact fill_first_waiter_first_match pre w suf r hpre hw

/-- Witness for C5 (spec scenario 6): with waiters for AC phase 1 and AC
phase 2, an incoming phase-2 `ACResponse` fills only the phase-2 waiter, and
the handler sees the response once. -/
theorem waiter_first_fit_witness :
    (deliver_response [waiterAC1, waiterAC2] responseAC2).2 = [responseAC2] ∧
    (deliver_response [waiterAC1, waiterAC2] responseAC2).1 =
      [waiterAC1, { waiterAC2 with result := some responseAC2 }] :=
  ⟨(waiter_first_fit [waiterAC1, waiterAC2] responseAC2).1,
   (waiter_first_fit [waiterAC1, waiterAC2] responseAC2).2.2 [waiterAC1] waiterAC2 []
     rfl (by decide) (by decide)⟩

/-- C3 counterexample: with a variable-info request outstanding since t = 0
and the clock at t = 1 s — strictly before the 2-second expiry the claim
asserts — pumping the registry is not a no-op: the code already re-issues
the request (its timeout constant is 0.5 s, not 2 s), sending the 'A'
address frame and the 'X' variable-info request for the head id 0. -/
theorem variable_info_expiry_counterexample :
    (1 : ℚ) < 0 + 2 ∧
    (populate_next_variable_info stPend 1).2 ≠ [] ∧
    (populate_next_variable_info stPend 1).2 =
      [.send 65 [1, 0], .send 88 [0x36, 0, 0]] := by
  have h : (populate_next_variable_info stPend 1).2 =
      [.send 65 [1, 0], .send 88 [0x36, 0, 0]] := by
    norm_num [populate_next_variable_info, send_w_request, stPend,
      REQUEST_TIMEOUT_SECONDS, w_letters]
  refine ⟨by norm_num, by rw [h]; simp, h⟩

/-- C3 amended: a variable-info request without a reply is considered
expired only after `REQUEST_TIMEOUT_SECONDS` (0.5 s, not 2 s).  Before that
interval elapses, pumping the registry sends nothing (so at most one
variable-info request is outstanding); once it has elapsed — or when no
request is outstanding — the driver re-issues the request for the head of
the id queue. -/
theorem variable_info_expiry (st : DriverState) (now t : ℚ) (id : Nat)
    (q : List Nat) (hq : st.variable_id_queue = id :: q) :
    (st.variable_info_request_time = some t → now < t + REQUEST_TIMEOUT_SECONDS →
      populate_next_variable_info st now = (st, [])) ∧
    (st.variable_info_request_time = none ∨
        (st.variable_info_request_time = some t ∧ t + REQUEST_TIMEOUT_SECONDS ≤ now) →
      populate_next_variable_info st now =
        ({ st with
            variable_info_request_time := some now
            w_nonce := (st.w_nonce + 1) % 4
            w_completion_pending := true },
         [.send 65 [1, 0],
          .send (w_letters.getD ((st.w_nonce + 1) % 4) 0)
            [0x36, id &&& 255, id >>> 8]])) := by
  constructor
  · intro ht hlt
    unfold populate_next_variable_info
    rw [hq, ht]
    simp [hlt]
  · intro h
    unfold populate_next_variable_info send_w_request
    rcases h with hnone | ⟨ht, hge⟩
    · rw [hq, hnone]
      simp
    · rw [hq, ht]
      simp [not_lt.mpr hge]

/-- Witness for C3 (amended): at 0.25 s the outstanding request is kept; at
1 s it has expired and id 0 is re-issued (nonce 0 → 1, letter 'X'). -/
theorem variable_info_expiry_witness :
    populate_next_variable_info stPend (1 / 4) = (stPend, []) ∧
    populate_next_variable_info stPend 1 =
      ({ stPend with
          variable_info_request_time := some 1
          w_nonce := 1
          w_completion_pending := true },
       [.send 65 [1, 0], .send 88 [0x36, 0, 0]]) :=
  ⟨(variable_info_expiry stPend (1 / 4) 0 0 [1, 2, 3, 4, 5, 7, 8] rfl).1 rfl
      (by norm_num [REQUEST_TIMEOUT_SECONDS]),
   (variable_info_expiry stPend 1 0 0 [1, 2, 3, 4, 5, 7, 8] rfl).2
      (Or.inr ⟨rfl, by norm_num [REQUEST_TIMEOUT_SECONDS]⟩)⟩

/-- C2 counterexample: even with the registry complete, an Info frame whose
subtype byte `msg[5] = 0x08` lies in the AC range but whose device-state
byte `msg[4] = 10` is not a valid `DeviceState` (values 0..9) is not decoded
as an `ACResponse`: `DeviceState(msg[4])` raises `ValueError` in the code
(faulting the session), modelled as `none` — contradicting the claim's
unconditional "those with msg[5] in 0x05..0x0B [are decoded] as
ACResponse". -/
theorem info_frames_gated_counterexample :
    handle_frame stFull 0 [0x20, 1, 1, 0, 10, 0x08, 0, 0, 0, 0, 0, 0, 0, 0, 0] =
      none := rfl

/-- C2 amended: While any required variable id is still missing (the id
queue is nonempty), a well-formed Info frame (`msg[0] = 0x20`, length ≥ 15)
delivers no response at all — in particular no `ACResponse` or `DCResponse`
— and the variable-info pump is invoked instead.  Once the registry is
complete (empty queue, all eight ids present), Info frames with
`msg[5] = 0x0C` decode to a `DCResponse`, and those with `msg[5]` in
0x05..0x0B decode to an `ACResponse` provided the device-state byte
`msg[4]` is a valid `DeviceState` (≤ 9); otherwise the code raises
`ValueError` and no response is delivered. -/
theorem info_frames_gated (st : DriverState) (now : ℚ) (msg : List Nat)
    (hlen : 15 ≤ msg.length) (h0 : msg.getD 0 0 = 0x20) :
    (st.variable_id_queue ≠ [] →
      handle_frame st now msg = some (populate_next_variable_info st now) ∧
      ∀ r, Event.response r ∉ (populate_next_variable_info st now).2) ∧
    (st.variable_id_queue = [] →
      (∀ i ∈ [0, 1, 2, 3, 4, 5, 7, 8], (st.variable_info i).isSome) →
      (msg.getD 5 0 = 0x0C →
        ∃ a b c d, handle_frame st now msg = some (st, [.response (.dc a b c d)])) ∧
      (0x05 ≤ msg.getD 5 0 → msg.getD 5 0 ≤ 0x0B → msg.getD 4 0 ≤ 9 →
        ∃ p n ds a b c d e, handle_frame st now msg =
          some (st, [.response (.ac p n ds a b c d e)]))) := by
  have hne : ¬(2 ≤ msg.length ∧ msg.getD 0 0 = 0xFF) := by
    rintro ⟨-, hf⟩
    rw [h0] at hf
    norm_num at hf
  constructor
  · intro hq
    unfold handle_frame
    rw [if_neg hne, if_pos ⟨hlen, h0⟩, if_neg hq]
    exact ⟨rfl, fun r => populate_sends_only st now r⟩
  · intro hq hcomp
    constructor
    · intro h5
      unfold handle_frame
      rw [if_neg hne, if_pos ⟨hlen, h0⟩, if_pos hq, if_pos h5]
      obtain ⟨v4, hv4⟩ := Option.isSome_iff_exists.mp (hcomp 4 (by simp))
      obtain ⟨v5, hv5⟩ := Option.isSome_iff_exists.mp (hcomp 5 (by simp))
      obtain ⟨v7, hv7⟩ := Option.isSome_iff_exists.mp (hcomp 7 (by simp))
      obtain ⟨x1, hx1⟩ := Option.isSome_iff_exists.mp
        (parse_isSome v4 _ (Or.inr (Or.inl (slice_length msg 6 2 (by omega)))))
      obtain ⟨x2, hx2⟩ := Option.isSome_iff_exists.mp
        (parse_isSome v5 _ (Or.inr (Or.inr (slice_length msg 8 3 (by omega)))))
      obtain ⟨x3, hx3⟩ := Option.isSome_iff_exists.mp
        (parse_isSome v5 _ (Or.inr (Or.inr (slice_length msg 11 3 (by omega)))))
      obtain ⟨x4, hx4⟩ := Option.isSome_iff_exists.mp
        (parse_isSome v7 _ (Or.inl (slice_length msg 14 1 (by omega))))
      simp only [hv4, hv5, hv7, hx1, hx2, hx3, hx4]
      exact ⟨x1, x2, x3, period_to_frequency x4, rfl⟩
    · intro h5a h5b h4
      unfold handle_frame
      have h5ne : ¬msg.getD 5 0 = 0x0C := by omega
      rw [if_neg hne, if_pos ⟨hlen, h0⟩, if_pos hq, if_neg h5ne,
        if_pos ⟨h5a, h5b⟩, if_pos h4]
      obtain ⟨v0, hv0⟩ := Option.isSome_iff_exists.mp (hcomp 0 (by simp))
      obtain ⟨v1, hv1⟩ := Option.isSome_iff_exists.mp (hcomp 1 (by simp))
      obtain ⟨v2, hv2⟩ := Option.isSome_iff_exists.mp (hcomp 2 (by simp))
      obtain ⟨v3, hv3⟩ := Option.isSome_iff_exists.mp (hcomp 3 (by simp))
      obtain ⟨v8, hv8⟩ := Option.isSome_iff_exists.mp (hcomp 8 (by simp))
      obtain ⟨x0, hx0⟩ := Option.isSome_iff_exists.mp
        (parse_isSome v0 _ (Or.inr (Or.inl (slice_length msg 6 2 (by omega)))))
      obtain ⟨x1, hx1⟩ := Option.isSome_iff_exists.mp
        (parse_isSome v1 _ (Or.inr (Or.inl (slice_length msg 8 2 (by omega)))))
      obtain ⟨x2, hx2⟩ := Option.isSome_iff_exists.mp
        (parse_isSome v2 _ (Or.inr (Or.inl (slice_length msg 10 2 (by omega)))))
      obtain ⟨x3, hx3⟩ := Option.isSome_iff_exists.mp
        (parse_isSome v3 _ (Or.inr (Or.inl (slice_length msg 12 2 (by omega)))))
      obtain ⟨x8, hx8⟩ := Option.isSome_iff_exists.mp
        (parse_isSome v8 _ (Or.inl (slice_length msg 14 1 (by omega))))
      simp only [hv0, hv1, hv2, hv3, hv8, hx0, hx1, hx2, hx3, hx8]
      exact ⟨max (9 - msg.getD 5 0) 1, msg.getD 5 0 - 7, msg.getD 4 0,
        x0, x1 * (msg.getD 1 0 : ℚ), x2, x3 * (msg.getD 2 0 : ℚ),
        period_to_frequency x8, rfl⟩

/-- Witness for C2: against the fresh driver (full queue) a DC info frame
only pumps the registry; against the completed registry the same frame
decodes to a `DCResponse`. -/
theorem info_frames_gated_witness :
    (handle_frame st0 0 msgInfoDC = some (populate_next_variable_info st0 0) ∧
      ∀ r, Event.response r ∉ (populate_next_variable_info st0 0).2) ∧
    (∃ a b c d, handle_frame stFull 0 msgInfoDC =
      some (stFull, [.response (.dc a b c d)])) :=
  ⟨(info_frames_gated st0 0 msgInfoDC (by decide) (by decide)).1 (by decide),
   ((info_frames_gated stFull 0 msgInfoDC (by decide) (by decide)).2
      (by decide) (by decide)).1 (by decide)⟩

/-- C7 counterexample: a variable-info reply declaring `scale_raw = 0x8000`
(bytes `msg[3] = 0x00`, `msg[4] = 0x80`) drives the code into
`1 / (0x8000 - 0x8000)` — a `ZeroDivisionError` — so no `VariableInfo` is
stored for the head id, contradicting the claim's "for every variable-info
reply with msg[2] == 0x8E and msg[5] == 0x8F". -/
theorem variable_info_reply_scale_counterexample :
    handle_variable_info_response stPend 0 [0, 0, 0x8E, 0x00, 0x80, 0x8F, 0, 0] =
      none := rfl

/-- C7 amended: for every variable-info reply with `msg[2] == 0x8E`,
`msg[5] == 0x8F` and `scale_raw ≠ 0x8000`, the stored `VariableInfo` is
computed as the claim states: `scale_raw = msg[3] | msg[4] << 8`, two's
complement and `signed := true` when `scale_raw ≥ 0x8000`, reciprocal scale
`1 / (0x8000 - scale)` when the magnitude is ≥ 0x4000,
`offset = msg[6] | msg[7] << 8`, and `signed` forced to true for id 3; the
head id is popped from the queue. -/
theorem variable_info_reply_decoding (st : DriverState) (now : ℚ) (msg : List Nat)
    (id : Nat) (q : List Nat) (hq : st.variable_id_queue = id :: q)
    (hlen : 8 ≤ msg.length) (h2 : msg.getD 2 0 = 0x8E) (h5 : msg.getD 5 0 = 0x8F)
    (hs : msg.getD 3 0 ||| msg.getD 4 0 <<< 8 ≠ 0x8000) :
    decoded_variable_info msg id = {
      signed := if id = 3 then true
        else decide (0x8000 ≤ msg.getD 3 0 ||| msg.getD 4 0 <<< 8)
      scale :=
        if 0x4000 ≤ (if 0x8000 ≤ msg.getD 3 0 ||| msg.getD 4 0 <<< 8 then
            0x10000 - (msg.getD 3 0 ||| msg.getD 4 0 <<< 8)
          else msg.getD 3 0 ||| msg.getD 4 0 <<< 8) then
          1 / ((0x8000 : ℚ) - ((if 0x8000 ≤ msg.getD 3 0 ||| msg.getD 4 0 <<< 8 then
            0x10000 - (msg.getD 3 0 ||| msg.getD 4 0 <<< 8)
          else msg.getD 3 0 ||| msg.getD 4 0 <<< 8 : Nat) : ℚ))
        else ((if 0x8000 ≤ msg.getD 3 0 ||| msg.getD 4 0 <<< 8 then
            0x10000 - (msg.getD 3 0 ||| msg.getD 4 0 <<< 8)
          else msg.getD 3 0 ||| msg.getD 4 0 <<< 8 : Nat) : ℚ)
      offset := msg.getD 6 0 ||| msg.getD 7 0 <<< 8 } ∧
    ∃ st' evs, handle_variable_info_response st now msg = some (st', evs) ∧
      st'.variable_id_queue = q ∧
      st'.variable_info id = some (decoded_variable_info msg id) := by
  have hne : (if 0x8000 ≤ msg.getD 3 0 ||| msg.getD 4 0 <<< 8 then
      0x10000 - (msg.getD 3 0 ||| msg.getD 4 0 <<< 8)
    else msg.getD 3 0 ||| msg.getD 4 0 <<< 8) ≠ 0x8000 := by
    split <;> omega
  refine ⟨rfl, ?_⟩
  unfold handle_variable_info_response
  rw [if_pos ⟨hlen, h2, h5⟩, if_neg hne, hq]
  refine ⟨(populate_next_variable_info
      { st with
          variable_id_queue := q
          variable_info := Function.update st.variable_info id
            (some (decoded_variable_info msg id))
          variable_info_request_time := none } now).1,
    (populate_next_variable_info
      { st with
          variable_id_queue := q
          variable_info := Function.update st.variable_info id
            (some (decoded_variable_info msg id))
          variable_info_request_time := none } now).2, rfl, ?_, ?_⟩
  · rw [(populate_preserves _ _).2]
  · rw [(populate_preserves _ _).1]
    simp [Function.update_same]

/-- Witness for C7 (amended): a reply with scale_raw 2 and offset 5 for head
id 0 stores `VariableInfo(signed=False, scale=2, offset=5)` and pops the id. -/
theorem variable_info_reply_decoding_witness :
    ∃ st' evs,
      handle_variable_info_response stPend 0 [0, 0, 0x8E, 2, 0, 0x8F, 5, 0] =
        some (st', evs) ∧
      st'.variable_id_queue = [1, 2, 3, 4, 5, 7, 8] ∧
      st'.variable_info 0 = some ⟨false, 2, 5⟩ := by
  obtain ⟨-, st', evs, h1, h2, h3⟩ :=
    variable_info_reply_decoding stPend 0 [0, 0, 0x8E, 2, 0, 0x8F, 5, 0] 0
      [1, 2, 3, 4, 5, 7, 8] rfl (by decide) (by decide) (by decide) (by decide)
  refine ⟨st', evs, h1, h2, ?_⟩
  rw [h3]
  norm_num [decoded_variable_info]

/-- C8 counterexample: the spec's byte sequence `07 FF 56 01 02 03 04 A0`
yields no frame at all: the length byte 7 demands 8 further bytes but only
7 are present, and those 7 bytes fail the `(L + sum) % 256 == 0` validation
anyway (the sum is 6 mod 256). -/
theorem version_handshake_counterexample :
    splitFrames [0x07, 0xFF, 0x56, 0x01, 0x02, 0x03, 0x04, 0xA0] = [] ∧
    (0x07 + ([0xFF, 0x56, 0x01, 0x02, 0x03, 0x04, 0xA0] : List Nat).sum) % 256 ≠ 0 := by
  constructor
  · rw [splitFrames_cons]
    norm_num
  · decide

/-- C8 amended: the correctly framed sequence `06 FF 56 01 02 03 04 9B`
(length byte 6 for the 6 payload bytes, checksum 0x9B making the sum 0 mod
256) passes validation and decodes to `VersionResponse` with version
0x04030201 (little-endian from msg[2..6]). -/
theorem version_handshake (st : DriverState) (now : ℚ) :
    splitFrames [0x06, 0xFF, 0x56, 0x01, 0x02, 0x03, 0x04, 0x9B] =
      [[0xFF, 0x56, 0x01, 0x02, 0x03, 0x04, 0x9B]] ∧
    handle_frame st now [0xFF, 0x56, 0x01, 0x02, 0x03, 0x04, 0x9B] =
      some (st, [.response (.version 0x04030201)]) := by
  constructor
  · rw [splitFrames_cons]
    norm_num [splitFrames_nil]
  · simp [handle_frame]

end VictronMK3
